import Mathlib

/-!
Verification of the Nextcloud Talk / Home Assistant bridge bot (`main.go`).

This file gives a shallow embedding of the message pipeline of the bot:

  * the HMAC-SHA256 signing helper `generateHmacForString` (modelled down to
    the SHA-256 compression function, over `Nat` bytes with explicit
    `% 2^32` wrap-around);
  * the trigger regular expression `^@ha\s\w+\s\w+` as an executable matcher;
  * the Go `strings.Fields` tokenizer and `commandToJson`;
  * `callWebhook`, `sendReply` and the orchestrating handler
    `messageHandling`, as pure functions over an environment that carries
    the external collaborators (JSON decoding from `encoding/json`, the
    network from `net/http`, randomness from `math/rand`, and the startup
    configuration) as oracles.

Theorems about the embedding settle the specification claims.
-/

/-! ## Bytes of a string

the Go `[]byte(s)` conversion yields the UTF-8 encoding of the string. -/

/-- UTF-8 encoding of a single character, as a list of byte values. -/
def utf8Bytes (c : Char) : List Nat :=
  let n := c.toNat
  if n < 128 then [n]
  else if n < 2048 then [192 + n / 64, 128 + n % 64]
  else if n < 65536 then [224 + n / 4096, 128 + n / 64 % 64, 128 + n % 64]
  else [240 + n / 262144, 128 + n / 4096 % 64, 128 + n / 64 % 64, 128 + n % 64]

/-- The bytes of a string, as the Go conversion `[]byte(s)` produces them (UTF-8). -/
def strBytes (s : String) : List Nat :=
  s.toList.flatMap utf8Bytes

/-! ## SHA-256 (`crypto/sha256`)

The hash is computed over lists of byte values (`Nat` below 256), with all
word arithmetic taken modulo `2^32`. -/

/-- Truncate to a 32-bit word. -/
def w32 (n : Nat) : Nat := n % 4294967296

/-- Right rotation of a 32-bit word by `n` positions. -/
def rotr32 (n x : Nat) : Nat := (x >>> n) ||| w32 (x <<< (32 - n))

/-- SHA-256 `Ch` function; `¬x` is complement within 32 bits. -/
def shaCh (x y z : Nat) : Nat := (x &&& y) ^^^ ((x ^^^ 4294967295) &&& z)

/-- SHA-256 `Maj` function. -/
def shaMaj (x y z : Nat) : Nat := (x &&& y) ^^^ (x &&& z) ^^^ (y &&& z)

/-- SHA-256 big sigma 0. -/
def bigSigma0 (x : Nat) : Nat := rotr32 2 x ^^^ rotr32 13 x ^^^ rotr32 22 x

/-- SHA-256 big sigma 1. -/
def bigSigma1 (x : Nat) : Nat := rotr32 6 x ^^^ rotr32 11 x ^^^ rotr32 25 x

/-- SHA-256 small sigma 0. -/
def smallSigma0 (x : Nat) : Nat := rotr32 7 x ^^^ rotr32 18 x ^^^ (x >>> 3)

/-- SHA-256 small sigma 1. -/
def smallSigma1 (x : Nat) : Nat := rotr32 17 x ^^^ rotr32 19 x ^^^ (x >>> 10)

/-- The 64 SHA-256 round constants, in decimal. -/
def shaK : List Nat :=
  [1116352408, 1899447441, 3049323471, 3921009573,
   961987163, 1508970993, 2453635748, 2870763221,
   3624381080, 310598401, 607225278, 1426881987,
   1925078388, 2162078206, 2614888103, 3248222580,
   3835390401, 4022224774, 264347078, 604807628,
   770255983, 1249150122, 1555081692, 1996064986,
   2554220882, 2821834349, 2952996808, 3210313671,
   3336571891, 3584528711, 113926993, 338241895,
   666307205, 773529912, 1294757372, 1396182291,
   1695183700, 1986661051, 2177026350, 2456956037,
   2730485921, 2820302411, 3259730800, 3345764771,
   3516065817, 3600352804, 4094571909, 275423344,
   430227734, 506948616, 659060556, 883997877,
   958139571, 1322822218, 1537002063, 1747873779,
   1955562222, 2024104815, 2227730452, 2361852424,
   2428436474, 2756734187, 3204031479, 3329325298]

/-- Working state of the SHA-256 compression function. -/
structure Sha256State where
  a : Nat
  b : Nat
  c : Nat
  d : Nat
  e : Nat
  f : Nat
  g : Nat
  h : Nat
deriving Repr, DecidableEq

/-- Initial SHA-256 hash value, in decimal. -/
def shaInit : Sha256State :=
  ⟨1779033703, 3144134277, 1013904242, 2773480762,
   1359893119, 2600822924, 528734635, 1541459225⟩

/-- One round of the SHA-256 compression function, fed one round constant
paired with one message-schedule word. -/
def compressStep (s : Sha256State) (kw : Nat × Nat) : Sha256State :=
  let t1 := w32 (s.h + bigSigma1 s.e + shaCh s.e s.f s.g + kw.1 + kw.2)
  let t2 := w32 (bigSigma0 s.a + shaMaj s.a s.b s.c)
  ⟨w32 (t1 + t2), s.a, s.b, s.c, w32 (s.d + t1), s.e, s.f, s.g⟩

/-- Append the next message-schedule word to a partial schedule. -/
def extendScheduleOnce (w : List Nat) : List Nat :=
  let n := w.length
  w ++ [w32 (smallSigma1 (w.getD (n - 2) 0) + w.getD (n - 7) 0 +
             smallSigma0 (w.getD (n - 15) 0) + w.getD (n - 16) 0)]

/-- The 64-word message schedule of a 16-word block. -/
def messageSchedule (block : List Nat) : List Nat :=
  (List.range 48).foldl (fun acc _ => extendScheduleOnce acc) block

/-- Process one 16-word block, updating the hash state. -/
def processBlock (st : Sha256State) (block : List Nat) : Sha256State :=
  let s := (shaK.zip (messageSchedule block)).foldl compressStep st
  ⟨w32 (st.a + s.a), w32 (st.b + s.b), w32 (st.c + s.c), w32 (st.d + s.d),
   w32 (st.e + s.e), w32 (st.f + s.f), w32 (st.g + s.g), w32 (st.h + s.h)⟩

/-- Big-endian 8-byte encoding of a (64-bit) number. -/
def be64 (n : Nat) : List Nat :=
  [n / 2 ^ 56 % 256, n / 2 ^ 48 % 256, n / 2 ^ 40 % 256, n / 2 ^ 32 % 256,
   n / 2 ^ 24 % 256, n / 2 ^ 16 % 256, n / 2 ^ 8 % 256, n % 256]

/-- SHA-256 padding: a `0x80` byte, zeros up to 56 mod 64, then the bit
length as a big-endian 64-bit integer. -/
def shaPad (msg : List Nat) : List Nat :=
  let len := msg.length
  let zeros := (119 - len % 64) % 64
  msg ++ 0x80 :: List.replicate zeros 0 ++ be64 (8 * len)

/-- Group a byte list into 32-bit big-endian words. -/
def bytesToWords : List Nat → List Nat
  | b0 :: b1 :: b2 :: b3 :: rest =>
      (((b0 * 256 + b1) * 256 + b2) * 256 + b3) :: bytesToWords rest
  | _ => []

/-- Split a list into chunks of 64 elements, structurally: `acc` holds the
bytes of the current chunk in reverse. -/
def chunks64Go : List Nat → List Nat → List (List Nat)
  | [], acc => if acc.isEmpty then [] else [acc.reverse]
  | b :: rest, acc =>
      if acc.length = 63 then (b :: acc).reverse :: chunks64Go rest []
      else chunks64Go rest (b :: acc)

/-- Split a list into chunks of 64 elements. -/
def chunks64 (l : List Nat) : List (List Nat) := chunks64Go l []

/-- Big-endian byte serialization of a 32-bit word. -/
def word32be (w : Nat) : List Nat :=
  [w / 2 ^ 24 % 256, w / 2 ^ 16 % 256, w / 2 ^ 8 % 256, w % 256]

/-- Serialize a final hash state into the 32-byte digest. -/
def digestBytes (st : Sha256State) : List Nat :=
  word32be st.a ++ word32be st.b ++ word32be st.c ++ word32be st.d ++
  word32be st.e ++ word32be st.f ++ word32be st.g ++ word32be st.h

/-- SHA-256 of a byte list, as a 32-byte list. -/
def sha256Bytes (msg : List Nat) : List Nat :=
  digestBytes
    ((chunks64 (shaPad msg)).foldl (fun st blk => processBlock st (bytesToWords blk)) shaInit)

/-! ## HMAC-SHA256 (`crypto/hmac`) and hex encoding (`encoding/hex`) -/

/-- HMAC-SHA256 with block size 64, over byte lists. -/
def hmacSha256 (key msg : List Nat) : List Nat :=
  let k0 := if key.length > 64 then sha256Bytes key else key
  let kp := k0 ++ List.replicate (64 - k0.length) 0
  let ipad := kp.map (fun b => b ^^^ 0x36)
  let opad := kp.map (fun b => b ^^^ 0x5c)
  sha256Bytes (opad ++ sha256Bytes (ipad ++ msg))

/-- Lowercase hexadecimal digit for a value below 16. -/
def hexDigit (n : Nat) : Char :=
  if n < 10 then Char.ofNat (n + 48) else Char.ofNat (n + 87)

/-- Two lowercase hex characters of one byte. -/
def hexOfByte (b : Nat) : List Char := [hexDigit (b / 16), hexDigit (b % 16)]

/-- Lowercase hex string of a byte list (`hex.EncodeToString`). -/
def hexEncodeBytes (bs : List Nat) : String := String.mk (bs.flatMap hexOfByte)

/-- `generateHmacForString` from `main.go`: the lowercase-hex HMAC-SHA256
digest of `random ++ message` under `secret`. -/
def generateHmacForString (message random secret : String) : String :=
  hexEncodeBytes (hmacSha256 (strBytes secret) (strBytes (random ++ message)))

/-! ## Globals of `main.go` -/

/-- Alphabet used for nonce generation. -/
def letterBytes : String :=
  "abcdefghijklmnopqrstuvwxyzABCDEFGHIJKLMNOPQRSTUVWXYZ0123456789"

/-- The pool of acknowledgement replies; it contains the single entry
"Done!". -/
def possibleResponses : List String := ["Done!"]

/-- Error value returned by the decoding helpers. -/
def errInvalidBody : String := "Invalid body supplied"

/-- `generateRandomBytes` from `main.go`: a string of `n` characters drawn
from `letterBytes`. The draws of `Intn` from `math/rand` are supplied by the
oracle `rnd` (reduced into range as `Intn` guarantees). -/
def generateRandomBytes (rnd : Nat → Nat) (n : Nat) : String :=
  String.mk ((List.range n).map (fun i => letterBytes.toList.getD (rnd i % letterBytes.length) ' '))

/-- `getRandomResponse` from `main.go`: picks `possibleResponses[Intn len]`;
the draw is supplied by the oracle value `k`, reduced into range. -/
def getRandomResponse (k : Nat) : String :=
  possibleResponses.getD (k % possibleResponses.length) ""

/-- The signature acceptance test performed by `messageHandling` (line 211):
the recomputed digest is compared to the supplied signature with a plain
string equality test. -/
def verifySignature (payload random signature secret : String) : Bool :=
  generateHmacForString payload random secret == signature

/-! ## The trigger regular expression

`triggerMessageRegex = regexp.MustCompile("^@ha\\s\\w+\\s\\w+")` and its
`Match` method. In Go, `\s` is the class `[\t\n\f\r ]` and `\w` is
`[0-9A-Za-z_]`. Because the two classes are disjoint, greedy matching of
`\w+` needs no backtracking and the matcher below is an exact executable
rendering of the regex. -/

/-- Membership in the Go regex class `\s` = `[\t\n\f\r ]` (code points 9, 10,
12, 13 and 32). -/
def isRegexSpace (c : Char) : Bool :=
  let n := c.toNat
  n == 9 || n == 10 || n == 12 || n == 13 || n == 32

/-- Membership in the Go regex class `\w` = `[0-9A-Za-z_]`. -/
def isWordChar (c : Char) : Bool :=
  let n := c.toNat
  decide (48 ≤ n ∧ n ≤ 57) || decide (65 ≤ n ∧ n ≤ 90) ||
  decide (97 ≤ n ∧ n ≤ 122) || n == 95

/-- Matches `\w+\s\w+` at the start of the character list. -/
def triggerTail (l : List Char) : Bool :=
  match l with
  | c :: cs =>
      isWordChar c &&
        (match cs.dropWhile isWordChar with
         | d :: ds =>
             isRegexSpace d &&
               (match ds with
                | e :: _ => isWordChar e
                | [] => false)
         | [] => false)
  | [] => false

/-- `triggerMessageRegex.Match` on a string: does `^@ha\s\w+\s\w+` match? -/
def triggerMessageRegexMatch (s : String) : Bool :=
  match s.toList with
  | '@' :: 'h' :: 'a' :: c :: cs => isRegexSpace c && triggerTail cs
  | _ => false

/-- The declarative reading of the trigger pattern, following the words of the
spec: the text starts with the literal marker `@ha`, then a whitespace
character, a word, a whitespace character, and a word. -/
def TriggerShape (s : String) : Prop :=
  ∃ c1 w1 c2 w2 rest,
    s.toList = '@' :: 'h' :: 'a' :: c1 :: (w1 ++ c2 :: (w2 ++ rest)) ∧
    isRegexSpace c1 = true ∧ w1 ≠ [] ∧ (∀ c ∈ w1, isWordChar c = true) ∧
    isRegexSpace c2 = true ∧ w2 ≠ [] ∧ (∀ c ∈ w2, isWordChar c = true)

/-! ## `strings.Fields` and `commandToJson` -/

/-- Membership in the Go `unicode.IsSpace` class, used by `strings.Fields`. -/
def goIsSpace (c : Char) : Bool :=
  let n := c.toNat
  decide (9 ≤ n ∧ n ≤ 13) || n == 32 || n == 133 || n == 160 ||
  n == 5760 || decide (8192 ≤ n ∧ n ≤ 8202) || n == 8232 || n == 8233 ||
  n == 8239 || n == 8287 || n == 12288

/-- Dropping a prefix does not lengthen a list (termination helper). -/
theorem dropWhile_length_le (p : α → Bool) (l : List α) :
    (l.dropWhile p).length ≤ l.length := by
  induction l with
  | nil => simp [List.dropWhile]
  | cons a l ih =>
      rw [List.dropWhile_cons]
      split
      · exact Nat.le_succ_of_le ih
      · simp

/-- `strings.Fields` on a character list: the maximal runs of
non-whitespace characters. -/
def goFieldsList (l : List Char) : List (List Char) :=
  match l with
  | [] => []
  | c :: cs =>
      if goIsSpace c then goFieldsList cs
      else (c :: cs.takeWhile (fun x => !goIsSpace x)) ::
           goFieldsList (cs.dropWhile (fun x => !goIsSpace x))
termination_by l.length
decreasing_by
  · simp
  · have := dropWhile_length_le (fun x => !goIsSpace x) cs
    simp
    omega

/-- `strings.Fields` on a string. -/
def goFields (s : String) : List String :=
  (goFieldsList s.toList).map String.mk

/-- The exact string produced by the `fmt.Sprintf` template in `commandToJson`
(a raw Go string literal containing newlines and tabs). -/
def commandTemplate (action target : String) : String :=
  "\x7b\n\t\t\t\"action\": \"" ++ action ++ "\",\n\t\t\t\"target\": \"" ++
    target ++ "\"\n\t\t\x7d"

/-- `commandToJson` from `main.go`: split the command on whitespace; with at
least three words, fill the template from words 1 and 2; otherwise log and
return `nil` (modelled as `none`). -/
def commandToJson (command : String) : Option String :=
  match goFields command with
  | _ :: w1 :: w2 :: _ => some (commandTemplate w1 w2)
  | _ => none

/-! ## Message envelope structures -/

/-- `MessageActor` from `main.go`. -/
structure MessageActor where
  type : String
  id : String
  name : String
deriving Repr, DecidableEq

/-- `MessageObject` from `main.go`. -/
structure MessageObject where
  type : String
  id : String
  name : String
  content : String
  mediaType : String
deriving Repr, DecidableEq

/-- `MessageTarget` from `main.go`. -/
structure MessageTarget where
  type : String
  id : String
  name : String
deriving Repr, DecidableEq

/-- `Message` from `main.go`: the chat-message envelope. -/
structure Message where
  type : String
  actor : MessageActor
  object : MessageObject
  target : MessageTarget
deriving Repr, DecidableEq

/-- `Response` from `main.go`: the outbound reply body. -/
structure Response where
  message : String
  replyTo : String
deriving Repr, DecidableEq

/-- `RichObjectMessage` from `main.go`: the nested rich-text payload (only
the `message` field is consumed). -/
structure RichObjectMessage where
  message : String
deriving Repr, DecidableEq

/-! ## Configuration and external collaborators

The configuration is read once at startup; JSON decoding (`encoding/json`),
the network (`net/http`) and randomness (`math/rand`) are external
collaborators, carried as oracles in an environment record. -/

/-- The configuration keys the handler reads. -/
structure BotConfig where
  secret : String
  haUrl : String
  haWebhookId : String

/-- Environment of one request: configuration plus oracles for the external
collaborators. `jsonDecodeMessage` and `jsonDecodeRich` model
`encoding/json` decoding into the two structures; `httpPost` models the
automation POST of `net/http` (transport error or status code);
`newRequestOk` models whether `http.NewRequest` accepts a URL (it fails
exactly when `url.Parse` rejects the URL, e.g. for ASCII control
characters or invalid percent escapes); `randBytes` and `randResp` model
the `math/rand` draws. -/
structure GoEnv where
  config : BotConfig
  jsonDecodeMessage : String → Except String Message
  jsonDecodeRich : String → Except String RichObjectMessage
  httpPost : String → String → Except String Nat
  newRequestOk : String → Bool
  randBytes : Nat → Nat
  randResp : Nat

/-- `createMessage` from `main.go`: decode the envelope, mapping any
decoding failure to `errInvalidBody`. -/
def createMessage (env : GoEnv) (input : String) : Except String Message :=
  match env.jsonDecodeMessage input with
  | Except.ok m => Except.ok m
  | Except.error _ => Except.error errInvalidBody

/-- `createRichMessageWithoutParameters` from `main.go`: decode the nested
rich-text payload, mapping any decoding failure to `errInvalidBody`. -/
def createRichMessageWithoutParameters (env : GoEnv) (input : String) :
    Except String RichObjectMessage :=
  match env.jsonDecodeRich input with
  | Except.ok m => Except.ok m
  | Except.error _ => Except.error errInvalidBody

/-! ## Outbound encoding (`encoding/json` marshalling of `Response`) -/

/-- Go `encoding/json` escaping of one character of a string value. -/
def goJsonEscapeChar (c : Char) : String :=
  if c == '"' then "\\\""
  else if c == '\\' then "\\\\"
  else if c == '\x0a' then "\\n"
  else if c == '\x0d' then "\\r"
  else if c == '\t' then "\\t"
  else if c == '<' then "\\u003c"
  else if c == '>' then "\\u003e"
  else if c == '&' then "\\u0026"
  else if c.toNat < 32 then
    "\\u00" ++ String.mk [hexDigit (c.toNat / 16), hexDigit (c.toNat % 16)]
  else if c.toNat == 8232 then "\\u2028"
  else if c.toNat == 8233 then "\\u2029"
  else String.mk [c]

/-- Go `encoding/json` escaping of a string value. -/
def goJsonEscape (s : String) : String :=
  String.join (s.toList.map goJsonEscapeChar)

/-- `json.Marshal` of a `Response` value: the exact bytes posted back to the
chat backend. -/
def jsonEncodeResponse (r : Response) : String :=
  "\x7b\"message\":\"" ++ goJsonEscape r.message ++ "\",\"replyTo\":\"" ++
    goJsonEscape r.replyTo ++ "\"\x7d"

/-! ## Observable effects of one request -/

/-- The outbound reply request that `sendReply` builds and posts: URL,
headers (content type, OCS API marker, nonce, signature) and body. -/
structure ReplyRequest where
  url : String
  contentType : String
  ocsApiRequest : String
  nonce : String
  signature : String
  body : String
deriving Repr, DecidableEq

/-- An external call made while handling one inbound request. -/
inductive BotAction where
  | webhookPost (url : String) (body : String)
  | replyPost (reply : ReplyRequest)
deriving Repr, DecidableEq

/-- The HTTP response written to the inbound caller. -/
structure HttpResponse where
  status : Nat
  body : String
deriving Repr, DecidableEq

/-- The Go call `http.Error(w, msg, code)`: writes the status code and the message
followed by a newline. -/
def httpError (msg : String) (code : Nat) : HttpResponse :=
  { status := code, body := msg ++ "\x0a" }

/-- The ordinary outcome of one inbound request: the HTTP response written
to the caller and the external calls performed, in order. -/
structure HandlerResult where
  response : HttpResponse
  actions : List BotAction
deriving Repr, DecidableEq

/-- The overall outcome of one inbound request: either the handler returns
and an HTTP response is written, or the process terminates through the
`os.Exit(1)` call on the `http.NewRequest` error path of `sendReply`,
after the listed external calls and with no response written. -/
inductive HandlerOutcome where
  | respond (result : HandlerResult)
  | osExit (code : Nat) (actions : List BotAction)
deriving Repr, DecidableEq

/-- The external calls performed in an outcome, in order. -/
def outcomeActions : HandlerOutcome → List BotAction
  | HandlerOutcome.respond r => r.actions
  | HandlerOutcome.osExit _ acts => acts

/-- One inbound HTTP request: method, the three signature headers, and the
body (`Except.error` models an `io.ReadAll` failure). -/
structure InboundRequest where
  method : String
  backend : String
  random : String
  signature : String
  body : Except String String

/-! ## `callWebhook`, `sendReply` and `messageHandling` -/

/-- The Go call `strings.TrimRight(s, "/")`: remove all trailing slash characters. -/
def trimRightSlashes (s : String) : String :=
  String.mk (s.toList.reverse.dropWhile (fun c => c == '/')).reverse

/-- `callWebhook` from `main.go`: trim trailing slashes off the configured
base URL, append `/api/webhook/` and the webhook id, POST the JSON data
(`nil` posts an empty body), and report `true` exactly on HTTP 200. Returns
the success flag together with the performed call. -/
def callWebhook (env : GoEnv) (jsonData : Option String) : Bool × BotAction :=
  let cleanedURL := trimRightSlashes env.config.haUrl
  let url := cleanedURL ++ "/api/webhook/" ++ env.config.haWebhookId
  let body := jsonData.getD ""
  let ok := match env.httpPost url body with
            | Except.error _ => false
            | Except.ok code => code == 200
  (ok, BotAction.webhookPost url body)

/-- The reply request `sendReply` assembles: a 64-character nonce, the
signature over the reply text (`generateHmacForString responseText random
secret`), the encoded `Response{message, replyTo}` body, and the URL
`{server}ocs/v2.php/apps/spreed/api/v1/bot/{target}/message` with the
nonce and signature headers. -/
def buildReply (env : GoEnv) (server : String) (message : Message)
    (responseText : String) : ReplyRequest :=
  let random := generateRandomBytes env.randBytes 64
  let signature := generateHmacForString responseText random env.config.secret
  let response : Response := { message := responseText, replyTo := message.object.id }
  let responseBody := jsonEncodeResponse response
  { url := server ++ "ocs/v2.php/apps/spreed/api/v1/bot/" ++
      message.target.id ++ "/message"
    contentType := "application/json"
    ocsApiRequest := "true"
    nonce := random
    signature := signature
    body := responseBody }

/-- `sendReply` from `main.go`: build and post the signed reply. When
`http.NewRequest` rejects the request URL (the `server` prefix comes from
the unsigned backend header, so a malformed URL reaches this point), the
function logs and calls `os.Exit(1)`, modelled as `Except.error` carrying
the exit code; no reply is posted in that case. Otherwise the built
request is posted and returned as the observable effect (a transport
failure of the post itself is logged and ignored). -/
def sendReply (env : GoEnv) (server : String) (message : Message)
    (responseText : String) : Except Nat ReplyRequest :=
  let requestURL := server ++ "ocs/v2.php/apps/spreed/api/v1/bot/" ++
    message.target.id ++ "/message"
  if env.newRequestOk requestURL then
    Except.ok (buildReply env server message responseText)
  else
    Except.error 1

/-- `messageHandling` from `main.go`: the inbound gateway. Non-POST methods
return immediately (an empty 200). A body read failure is a 400. The
HMAC digest of `random ++ body` is compared to the signature header; a
mismatch is a 400. An envelope decode failure is a 400. For a rich-text
message whose text matches the trigger regex, the command is serialized and
POSTed to the webhook, then a reply ("Done!" on success, the error text on
failure) is sent and the path answers 200 "Received" — unless building the
reply request fails inside `sendReply`, in which case the process exits
with code 1 after the webhook call and no response is written. -/
def messageHandling (env : GoEnv) (req : InboundRequest) : HandlerOutcome :=
  if req.method ≠ "POST" then
    HandlerOutcome.respond { response := { status := 200, body := "" }, actions := [] }
  else
    match req.body with
    | Except.error _ =>
        HandlerOutcome.respond
          { response := httpError "can\x27t read body" 400, actions := [] }
    | Except.ok body =>
        let server := req.backend
        let random := req.random
        let signature := req.signature
        let digest := generateHmacForString body random env.config.secret
        if digest ≠ signature then
          HandlerOutcome.respond
            { response := httpError "Invalid signature" 400, actions := [] }
        else
          match createMessage env body with
          | Except.error _ =>
              HandlerOutcome.respond
                { response := httpError "Invalid signature" 400, actions := [] }
          | Except.ok message =>
              if message.object.name == "message" then
                match createRichMessageWithoutParameters env message.object.content with
                | Except.ok richMessage =>
                    if triggerMessageRegexMatch richMessage.message then
                      let json := commandToJson richMessage.message
                      let wh := callWebhook env json
                      match (if wh.1 then
                               sendReply env server message (getRandomResponse env.randResp)
                             else
                               sendReply env server message "Error calling Home Assistant") with
                      | Except.ok reply =>
                          HandlerOutcome.respond
                            { response := httpError "Received" 200,
                              actions := [wh.2, BotAction.replyPost reply] }
                      | Except.error code =>
                          HandlerOutcome.osExit code [wh.2]
                    else
                      HandlerOutcome.respond
                        { response := httpError "Received" 200, actions := [] }
                | Except.error _ =>
                    HandlerOutcome.respond
                      { response := httpError "Received" 200, actions := [] }
              else
                HandlerOutcome.respond
                  { response := httpError "Received" 200, actions := [] }

/-! ## Helper lemmas -/

/-- The serialized digest of any hash state has 32 bytes. -/
theorem digestBytes_length (st : Sha256State) : (digestBytes st).length = 32 := by
  simp [digestBytes, word32be]

/-- SHA-256 always produces a 32-byte digest. -/
theorem sha256Bytes_length (msg : List Nat) : (sha256Bytes msg).length = 32 := by
  unfold sha256Bytes
  exact digestBytes_length _

/-- Hex encoding doubles the length. -/
theorem hexEncodeBytes_length (bs : List Nat) :
    (hexEncodeBytes bs).length = 2 * bs.length := by
  unfold hexEncodeBytes
  show (bs.flatMap hexOfByte).length = 2 * bs.length
  induction bs with
  | nil => simp
  | cons b bs ih => simp [hexOfByte] at ih ⊢; omega

/-- `generateHmacForString` always returns a 64-character hex string. -/
theorem generateHmacForString_length (message random secret : String) :
    (generateHmacForString message random secret).length = 64 := by
  unfold generateHmacForString hmacSha256
  rw [hexEncodeBytes_length, sha256Bytes_length]

/-- The response pool has a single element, so every draw yields "Done!". -/
theorem getRandomResponse_eq (k : Nat) : getRandomResponse k = "Done!" := by
  simp [getRandomResponse, possibleResponses, Nat.mod_one]

/-- A regex whitespace character is not a regex word character. -/
theorem isRegexSpace_not_word {c : Char} (h : isRegexSpace c = true) :
    isWordChar c = false := by
  simp [isRegexSpace] at h
  simp [isWordChar]
  omega

/-- A regex whitespace character is whitespace for `strings.Fields`. -/
theorem isRegexSpace_goIsSpace {c : Char} (h : isRegexSpace c = true) :
    goIsSpace c = true := by
  simp [isRegexSpace] at h
  simp [goIsSpace]
  omega

/-- A regex word character is not whitespace for `strings.Fields`. -/
theorem isWordChar_not_goIsSpace {c : Char} (h : isWordChar c = true) :
    goIsSpace c = false := by
  simp [isWordChar] at h
  simp [goIsSpace]
  omega

theorem triggerMessageRegexMatch_cons {s : String} {c : Char} {cs : List Char}
    (h : s.toList = '@' :: 'h' :: 'a' :: c :: cs) :
    triggerMessageRegexMatch s = (isRegexSpace c && triggerTail cs) := by
  unfold triggerMessageRegexMatch
  rw [h]
  rfl

theorem triggerMatch_iff (s : String) :
    triggerMessageRegexMatch s = true ↔ TriggerShape s := by
  constructor
  · intro h
    unfold triggerMessageRegexMatch at h
    split at h
    case _ c cs heq =>
      rw [Bool.and_eq_true] at h
      obtain ⟨hsp, htail⟩ := h
      unfold triggerTail at htail
      split at htail
      case _ c1 cs1 =>
        rw [Bool.and_eq_true] at htail
        obtain ⟨hw, hrest⟩ := htail
        split at hrest
        case _ d ds hdrop =>
          rw [Bool.and_eq_true] at hrest
          obtain ⟨hd, he⟩ := hrest
          split at he
          case _ e rest' =>
            have hcs1 : cs1 = cs1.takeWhile isWordChar ++ (d :: e :: rest') := by
              conv_lhs => rw [← List.takeWhile_append_dropWhile isWordChar cs1]
              rw [hdrop]
            refine ⟨c, c1 :: cs1.takeWhile isWordChar, d, [e], rest', ?_, hsp, ?_, ?_, hd, ?_, ?_⟩
            · rw [heq]
              conv_lhs => rw [hcs1]
              simp
            · simp
            · intro x hx
              rcases List.mem_cons.mp hx with h1 | h2
              · subst h1; exact hw
              · exact List.mem_takeWhile_imp h2
            · simp
            · intro x hx
              simp at hx
              subst hx
              exact he
          case _ => exact absurd he (by simp)
        case _ => exact absurd hrest (by simp)
      case _ => exact absurd htail (by simp)
    case _ => exact absurd h (by simp)
  · rintro ⟨c1, w1, c2, w2, rest, hl, hs1, hw1ne, hw1, hs2, hw2ne, hw2⟩
    obtain ⟨a, w1', rfl⟩ := List.exists_cons_of_ne_nil hw1ne
    obtain ⟨b, w2', rfl⟩ := List.exists_cons_of_ne_nil hw2ne
    rw [triggerMessageRegexMatch_cons hl, Bool.and_eq_true]
    refine ⟨hs1, ?_⟩
    have hdrop : (w1' ++ c2 :: (b :: w2' ++ rest)).dropWhile isWordChar =
        c2 :: (b :: w2' ++ rest) := by
      rw [List.dropWhile_append_of_pos (fun x hx => hw1 x (by simp [hx]))]
      exact List.dropWhile_cons_of_neg (by simp [isRegexSpace_not_word hs2])
    rw [List.cons_append]
    show (isWordChar a &&
      (match (w1' ++ c2 :: (b :: w2' ++ rest)).dropWhile isWordChar with
       | d :: ds =>
           isRegexSpace d &&
             (match ds with
              | e :: _ => isWordChar e
              | [] => false)
       | [] => false)) = true
    rw [hdrop]
    show (isWordChar a && (isRegexSpace c2 && isWordChar b)) = true
    simp [hw1 a (by simp), hs2, hw2 b (by simp)]

/-- Unfolding `goFieldsList` at a whitespace character. -/
theorem goFieldsList_cons_space {c : Char} (r : List Char) (h : goIsSpace c = true) :
    goFieldsList (c :: r) = goFieldsList r := by
  rw [goFieldsList]
  simp [h]

/-- Unfolding `goFieldsList` at a non-whitespace character. -/
theorem goFieldsList_cons_nonspace {c : Char} (r : List Char) (h : goIsSpace c = false) :
    goFieldsList (c :: r) =
      (c :: r.takeWhile (fun x => !goIsSpace x)) ::
        goFieldsList (r.dropWhile (fun x => !goIsSpace x)) := by
  rw [goFieldsList]
  simp [h]

/-- Peeling a whole field: a nonempty run of non-whitespace characters
followed by a whitespace character is the next field. -/
theorem goFieldsList_field {f : List Char} {d : Char} (r : List Char)
    (hne : f ≠ []) (hf : ∀ x ∈ f, goIsSpace x = false) (hd : goIsSpace d = true) :
    goFieldsList (f ++ d :: r) = f :: goFieldsList (d :: r) := by
  obtain ⟨a, f', rfl⟩ := List.exists_cons_of_ne_nil hne
  rw [List.cons_append, goFieldsList_cons_nonspace _ (hf a (by simp))]
  have htake : (f' ++ d :: r).takeWhile (fun x => !goIsSpace x) = f' := by
    rw [List.takeWhile_append_of_pos (fun x hx => by simp [hf x (by simp [hx])])]
    rw [List.takeWhile_cons_of_neg (by simp [hd])]
    simp
  have hdrop : (f' ++ d :: r).dropWhile (fun x => !goIsSpace x) = d :: r := by
    rw [List.dropWhile_append_of_pos (fun x hx => by simp [hf x (by simp [hx])])]
    exact List.dropWhile_cons_of_neg (by simp [hd])
  rw [htake, hdrop]

/-- A list that starts with a non-whitespace character splits into at least
one field. -/
theorem goFieldsList_ne_nil {c : Char} (r : List Char) (h : goIsSpace c = false) :
    goFieldsList (c :: r) ≠ [] := by
  rw [goFieldsList_cons_nonspace _ h]
  simp

theorem trigger_goFields {s : String} (h : triggerMessageRegexMatch s = true) :
    ∃ w1 w2 rest, goFields s = "@ha" :: w1 :: w2 :: rest := by
  obtain ⟨c1, w1, c2, w2, rest, hl, hs1, hw1ne, hw1, hs2, hw2ne, hw2⟩ :=
    (triggerMatch_iff s).mp h
  obtain ⟨b, w2', rfl⟩ := List.exists_cons_of_ne_nil hw2ne
  unfold goFields
  rw [hl]
  have h1 : ('@' :: 'h' :: 'a' :: c1 :: (w1 ++ c2 :: (b :: w2' ++ rest)) : List Char)
      = ['@', 'h', 'a'] ++ c1 :: (w1 ++ c2 :: (b :: w2' ++ rest)) := by simp
  rw [h1]
  rw [goFieldsList_field _ (by simp)
    (by intro x hx; simp at hx; rcases hx with rfl | rfl | rfl <;> decide)
    (isRegexSpace_goIsSpace hs1)]
  rw [goFieldsList_cons_space _ (isRegexSpace_goIsSpace hs1)]
  rw [goFieldsList_field _ hw1ne
    (fun x hx => isWordChar_not_goIsSpace (hw1 x hx))
    (isRegexSpace_goIsSpace hs2)]
  rw [goFieldsList_cons_space _ (isRegexSpace_goIsSpace hs2)]
  rw [List.cons_append]
  rw [goFieldsList_cons_nonspace _ (isWordChar_not_goIsSpace (hw2 b (by simp)))]
  refine ⟨String.mk w1,
    String.mk (b :: (w2' ++ rest).takeWhile (fun x => !goIsSpace x)),
    List.map String.mk (goFieldsList ((w2' ++ rest).dropWhile (fun x => !goIsSpace x))), ?_⟩
  simp only [List.map_cons]

theorem trigger_commandToJson {s : String} (h : triggerMessageRegexMatch s = true) :
    (goFields s).length ≥ 3 ∧ commandToJson s = some (commandTemplate ((goFields s).getD 1 "") ((goFields s).getD 2 "")) := by
  obtain ⟨w1, w2, rest, hg⟩ := trigger_goFields h
  constructor
  · rw [hg]
    simp
  · unfold commandToJson
    rw [hg]
    rfl

theorem messageHandling_message_path (env : GoEnv) (req : InboundRequest)
    (body : String) (message : Message) (richMessage : RichObjectMessage)
    (hm : req.method = "POST") (hb : req.body = Except.ok body)
    (hs : req.signature = generateHmacForString body req.random env.config.secret)
    (hc : createMessage env body = Except.ok message)
    (hn : message.object.name = "message")
    (hr : createRichMessageWithoutParameters env message.object.content =
      Except.ok richMessage) :
    messageHandling env req =
      if triggerMessageRegexMatch richMessage.message then
        match (if (callWebhook env (commandToJson richMessage.message)).1 then
                 sendReply env req.backend message (getRandomResponse env.randResp)
               else
                 sendReply env req.backend message "Error calling Home Assistant") with
        | Except.ok reply =>
            HandlerOutcome.respond
              { response := httpError "Received" 200,
                actions := [(callWebhook env (commandToJson richMessage.message)).2,
                            BotAction.replyPost reply] }
        | Except.error code =>
            HandlerOutcome.osExit code
              [(callWebhook env (commandToJson richMessage.message)).2]
      else
        HandlerOutcome.respond
          { response := httpError "Received" 200, actions := [] } := by
  obtain ⟨m, backend, random, sigF, bodyE⟩ := req
  simp only at hm hb hs ⊢
  subst hm
  subst hb
  subst hs
  unfold messageHandling
  simp [hc, hn, hr]

theorem messageHandling_actions_inv (env : GoEnv) (req : InboundRequest)
    (h : outcomeActions (messageHandling env req) ≠ []) :
    ∃ body message richMessage rest,
      req.method = "POST" ∧ req.body = Except.ok body ∧
      req.signature = generateHmacForString body req.random env.config.secret ∧
      createMessage env body = Except.ok message ∧
      message.object.name = "message" ∧
      createRichMessageWithoutParameters env message.object.content =
        Except.ok richMessage ∧
      triggerMessageRegexMatch richMessage.message = true ∧
      outcomeActions (messageHandling env req) =
        (callWebhook env (commandToJson richMessage.message)).2 :: rest ∧
      (rest = [] ∨ ∃ r, rest = [BotAction.replyPost r]) := by
  obtain ⟨m, backend, random, sigF, bodyE⟩ := req
  by_cases hm : m = "POST"
  · subst hm
    cases bodyE with
    | error e => exact absurd (by unfold messageHandling; simp [outcomeActions]) h
    | ok body =>
      by_cases hsig : sigF = generateHmacForString body random env.config.secret
      · cases hc : createMessage env body with
        | error e =>
            exact absurd
              (by unfold messageHandling; simp [outcomeActions, hsig, hc]) h
        | ok message =>
          by_cases hn : message.object.name = "message"
          · cases hr : createRichMessageWithoutParameters env message.object.content with
            | error e =>
                exact absurd
                  (by unfold messageHandling; simp [outcomeActions, hsig, hc, hn, hr]) h
            | ok rich =>
              have hpath := messageHandling_message_path env
                ⟨"POST", backend, random, sigF, Except.ok body⟩
                body message rich rfl rfl hsig hc hn hr
              by_cases ht : triggerMessageRegexMatch rich.message = true
              · by_cases hw : (callWebhook env (commandToJson rich.message)).1 = true
                · cases hsr : sendReply env backend message (getRandomResponse env.randResp) with
                  | ok reply =>
                      refine ⟨body, message, rich, [BotAction.replyPost reply],
                        rfl, rfl, hsig, hc, hn, hr, ht, ?_, Or.inr ⟨reply, rfl⟩⟩
                      rw [hpath]
                      simp [ht, hw, hsr, outcomeActions]
                  | error code =>
                      refine ⟨body, message, rich, [],
                        rfl, rfl, hsig, hc, hn, hr, ht, ?_, Or.inl rfl⟩
                      rw [hpath]
                      simp [ht, hw, hsr, outcomeActions]
                · cases hsr : sendReply env backend message "Error calling Home Assistant" with
                  | ok reply =>
                      refine ⟨body, message, rich, [BotAction.replyPost reply],
                        rfl, rfl, hsig, hc, hn, hr, ht, ?_, Or.inr ⟨reply, rfl⟩⟩
                      rw [hpath]
                      simp [ht, hw, hsr, outcomeActions]
                  | error code =>
                      refine ⟨body, message, rich, [],
                        rfl, rfl, hsig, hc, hn, hr, ht, ?_, Or.inl rfl⟩
                      rw [hpath]
                      simp [ht, hw, hsr, outcomeActions]
              · exact absurd (by rw [hpath]; simp [ht, outcomeActions]) h
          · exact absurd
              (by unfold messageHandling; simp [outcomeActions, hsig, hc, hn]) h
      · have hne : generateHmacForString body random env.config.secret ≠ sigF :=
          fun hh => hsig hh.symm
        exact absurd (by unfold messageHandling; simp [outcomeActions, hne]) h
  · exact absurd (by unfold messageHandling; simp [outcomeActions, hm]) h

/-- A POST request whose signature header does not match the recomputed
digest is rejected with 400 and performs no external call. -/
theorem messageHandling_bad_signature (env : GoEnv) (req : InboundRequest)
    (body : String) (hm : req.method = "POST") (hb : req.body = Except.ok body)
    (hsig : req.signature ≠ generateHmacForString body req.random env.config.secret) :
    messageHandling env req = HandlerOutcome.respond
      { response := httpError "Invalid signature" 400, actions := [] } := by
  obtain ⟨m, backend, random, sigF, bodyE⟩ := req
  simp only at hm hb hsig
  subst hm
  subst hb
  have hne : generateHmacForString body random env.config.secret ≠ sigF :=
    fun hh => hsig hh.symm
  unfold messageHandling
  simp [hne]

/-! ## Test fixtures for the concrete witnesses -/

/-- A concrete environment: secret "s", automation base URL with a trailing
slash, and failing decoders and network. -/
def sampleEnv : GoEnv :=
  { config := { secret := "s", haUrl := "http://ha.local/", haWebhookId := "hook" }
    jsonDecodeMessage := fun _ => Except.error "bad"
    jsonDecodeRich := fun _ => Except.error "bad"
    httpPost := fun _ _ => Except.error "down"
    newRequestOk := fun _ => true
    randBytes := fun _ => 0
    randResp := 0 }

/-- A concrete decoded chat-message envelope. -/
def sampleMessage : Message :=
  { type := "Create"
    actor := { type := "user", id := "alice", name := "Alice" }
    object := { type := "chat", id := "41", name := "message",
                content := "rich", mediaType := "text/markdown" }
    target := { type := "room", id := "tok", name := "Room" } }

/-- `sampleEnv` whose decoders yield `sampleMessage` with a rich text that
is not a command. -/
def envTriggerMiss : GoEnv :=
  { sampleEnv with
    jsonDecodeMessage := fun _ => Except.ok sampleMessage
    jsonDecodeRich := fun _ => Except.ok { message := "hello @ha turn_on light1" } }

/-- `sampleEnv` whose decoders yield `sampleMessage` with a command text,
and whose automation endpoint answers 200. -/
def envTriggerHit : GoEnv :=
  { sampleEnv with
    jsonDecodeMessage := fun _ => Except.ok sampleMessage
    jsonDecodeRich := fun _ => Except.ok { message := "@ha turn_on light1" }
    httpPost := fun _ _ => Except.ok 200 }

/-- A POST request over body "b" and nonce "r", correctly signed for
secret "s". -/
def reqSigned : InboundRequest :=
  { method := "POST", backend := "https://cloud.example/", random := "r"
    signature := generateHmacForString "b" "r" "s"
    body := Except.ok "b" }

/-- `envTriggerHit` whose `http.NewRequest` oracle rejects URLs containing
a tab character, one of the ASCII control characters `url.Parse` refuses. -/
def envReplyExit : GoEnv :=
  { envTriggerHit with
    newRequestOk := fun u => !(u.toList.any (fun c => c == '\t')) }

/-- `reqSigned` with a malformed (tab-containing) backend header; the
header is not covered by the signature, so the request still verifies. -/
def reqBadBackend : InboundRequest :=
  { method := "POST", backend := "bad\turl/", random := "r"
    signature := generateHmacForString "b" "r" "s"
    body := Except.ok "b" }

/-- `sendReply` posts the built reply whenever `http.NewRequest` accepts
the request URL. -/
theorem sendReply_ok {env : GoEnv} {server : String} {message : Message}
    (responseText : String)
    (h : env.newRequestOk (server ++ "ocs/v2.php/apps/spreed/api/v1/bot/" ++
      message.target.id ++ "/message") = true) :
    sendReply env server message responseText =
      Except.ok (buildReply env server message responseText) := by
  unfold sendReply
  simp [h]

/-- `sendReply` exits with code 1 whenever `http.NewRequest` rejects the
request URL. -/
theorem sendReply_exit {env : GoEnv} {server : String} {message : Message}
    (responseText : String)
    (h : env.newRequestOk (server ++ "ocs/v2.php/apps/spreed/api/v1/bot/" ++
      message.target.id ++ "/message") = false) :
    sendReply env server message responseText = Except.error 1 := by
  unfold sendReply
  simp [h]

/-- The only exit code `sendReply` can produce is 1. -/
theorem sendReply_error_code {env : GoEnv} {server : String} {message : Message}
    {responseText : String} {code : Nat}
    (h : sendReply env server message responseText = Except.error code) :
    code = 1 := by
  unfold sendReply at h
  by_cases hu : env.newRequestOk (server ++ "ocs/v2.php/apps/spreed/api/v1/bot/" ++
      message.target.id ++ "/message") = true
  · simp [hu] at h
  · simp [hu] at h
    exact h.symm

/-! ## Claims -/

/-- Claim C1: for every inbound request, no command is dispatched to the
automation endpoint and no reply is sent unless the supplied signature
header equals the HMAC-SHA256 digest of nonce++body under the configured
secret; on a signature mismatch the handler responds 400 and performs no
further action. -/
theorem c1_signature_gate :
    (∀ (env : GoEnv) (req : InboundRequest),
        outcomeActions (messageHandling env req) ≠ [] →
        ∃ body, req.body = Except.ok body ∧
          req.signature = generateHmacForString body req.random env.config.secret) ∧
    (∀ (env : GoEnv) (req : InboundRequest) (body : String),
        req.method = "POST" → req.body = Except.ok body →
        req.signature ≠ generateHmacForString body req.random env.config.secret →
        messageHandling env req = HandlerOutcome.respond
          { response := httpError "Invalid signature" 400, actions := [] }) := by
  constructor
  · intro env req h
    obtain ⟨body, _, _, _, _, hb, hs, _⟩ := messageHandling_actions_inv env req h
    exact ⟨body, hb, hs⟩
  · intro env req body hm hb hsig
    exact messageHandling_bad_signature env req body hm hb hsig

/-- Witness for C1: a correctly formed POST whose signature header is "x"
(not the digest) is answered with 400 "Invalid signature" and triggers no
external call. -/
theorem c1_signature_gate_witness :
    messageHandling sampleEnv
      { method := "POST", backend := "", random := "r", signature := "x",
        body := Except.ok "b" } =
      HandlerOutcome.respond
        { response := httpError "Invalid signature" 400, actions := [] } :=
  c1_signature_gate.2 sampleEnv _ "b" rfl rfl
    (fun hcontra => by
      have hlen := congrArg String.length hcontra
      rw [generateHmacForString_length] at hlen
      exact absurd hlen (by decide))

/-- Claim C2: HMAC round trip; verifying the signature produced by signing
the same payload and nonce under the same secret succeeds. -/
theorem c2_hmac_roundtrip (payload random secret : String) :
    verifySignature payload random
      (generateHmacForString payload random secret) secret = true := by
  simp [verifySignature]

/-- Claim C3 (documentation): the inbound acceptance test is plain string
equality of the recomputed digest with the supplied signature. The
comparison the source performs (`digest != signature` on Go strings) is a
byte-wise short-circuiting comparison, not a constant-time one; that
timing behaviour has no counterpart in this functional embedding. -/
theorem c3_signature_comparison (payload random signature secret : String) :
    verifySignature payload random signature secret = true ↔
      generateHmacForString payload random secret = signature := by
  simp [verifySignature]

/-- Claim C6: the automation dispatch returns true iff the POST to the
webhook URL yields HTTP 200 (any other status and any transport error give
false), and the URL is the base URL with trailing slashes trimmed plus
`/api/webhook/{webhookId}`. -/
theorem c6_webhook_dispatch (env : GoEnv) (jsonData : Option String) :
    ((callWebhook env jsonData).1 = true ↔
      env.httpPost
        (trimRightSlashes env.config.haUrl ++ "/api/webhook/" ++ env.config.haWebhookId)
        (jsonData.getD "") = Except.ok 200) ∧
    (callWebhook env jsonData).2 =
      BotAction.webhookPost
        (trimRightSlashes env.config.haUrl ++ "/api/webhook/" ++ env.config.haWebhookId)
        (jsonData.getD "") := by
  constructor
  · unfold callWebhook
    cases hp : env.httpPost
        (trimRightSlashes env.config.haUrl ++ "/api/webhook/" ++ env.config.haWebhookId)
        (jsonData.getD "") with
    | error e => simp [hp]
    | ok code => simp [hp]
  · rfl

/-- Claim C10: a request to the message endpoint whose method is not POST
is answered with an empty 200 and nothing else happens: the result is a
constant, independent of body, headers and environment. -/
theorem c10_non_post (env : GoEnv) (req : InboundRequest)
    (h : req.method ≠ "POST") :
    messageHandling env req = HandlerOutcome.respond
      { response := { status := 200, body := "" }, actions := [] } := by
  unfold messageHandling
  simp [h]

/-- Witness for C10: a GET request returns the empty 200 result. -/
theorem c10_non_post_witness :
    messageHandling sampleEnv
      { method := "GET", backend := "b", random := "r", signature := "s",
        body := Except.ok "x" } =
      HandlerOutcome.respond
        { response := { status := 200, body := "" }, actions := [] } :=
  c10_non_post sampleEnv _ (by decide)

/-- Claim C4: a rich-text message triggers command handling iff its text
starts with the literal marker `@ha` followed by whitespace, a word,
whitespace, and a word; and on the fully verified path a non-matching text
(including texts where the marker appears later than the start) causes no
automation call and no reply while the inbound response is still 200
"Received". -/
theorem c4_trigger_detection :
    (∀ s : String, triggerMessageRegexMatch s = true ↔ TriggerShape s) ∧
    (∀ (env : GoEnv) (req : InboundRequest) (body : String) (message : Message)
        (richMessage : RichObjectMessage),
        req.method = "POST" → req.body = Except.ok body →
        req.signature = generateHmacForString body req.random env.config.secret →
        createMessage env body = Except.ok message →
        message.object.name = "message" →
        createRichMessageWithoutParameters env message.object.content =
          Except.ok richMessage →
        triggerMessageRegexMatch richMessage.message = false →
        messageHandling env req = HandlerOutcome.respond
          { response := httpError "Received" 200, actions := [] }) := by
  constructor
  · exact triggerMatch_iff
  · intro env req body message richMessage hm hb hs hc hn hr ht
    rw [messageHandling_message_path env req body message richMessage hm hb hs hc hn hr]
    simp [ht]

/-- Witness for C4: a correctly signed request whose rich text is
"hello @ha turn_on light1" (marker not at the start) produces 200
"Received" with no webhook call and no reply. -/
theorem c4_trigger_detection_witness :
    messageHandling envTriggerMiss reqSigned =
      HandlerOutcome.respond
        { response := httpError "Received" 200, actions := [] } :=
  c4_trigger_detection.2 envTriggerMiss reqSigned "b" sampleMessage
    { message := "hello @ha turn_on light1" }
    rfl rfl rfl rfl rfl rfl (by decide)

/-- Claim C5: for every trigger-matching text, the body posted to the
automation webhook is the `commandToJson` template filled with the second
and third whitespace-delimited tokens of the text; tokens beyond the third
do not appear. Whether the run then replies (respond) or dies on the
reply-building path (exit), the webhook call and its body are the same. -/
theorem c5_webhook_body :
    ∀ (env : GoEnv) (req : InboundRequest) (body : String) (message : Message)
      (richMessage : RichObjectMessage),
      req.method = "POST" → req.body = Except.ok body →
      req.signature = generateHmacForString body req.random env.config.secret →
      createMessage env body = Except.ok message →
      message.object.name = "message" →
      createRichMessageWithoutParameters env message.object.content =
        Except.ok richMessage →
      triggerMessageRegexMatch richMessage.message = true →
      ∃ w0 w1 w2 ws,
        goFields richMessage.message = w0 :: w1 :: w2 :: ws ∧
        commandToJson richMessage.message = some (commandTemplate w1 w2) ∧
        ((∃ reply,
            messageHandling env req = HandlerOutcome.respond
              { response := httpError "Received" 200,
                actions := [BotAction.webhookPost
                    (trimRightSlashes env.config.haUrl ++ "/api/webhook/" ++
                      env.config.haWebhookId)
                    (commandTemplate w1 w2),
                  BotAction.replyPost reply] }) ∨
          messageHandling env req = HandlerOutcome.osExit 1
            [BotAction.webhookPost
              (trimRightSlashes env.config.haUrl ++ "/api/webhook/" ++
                env.config.haWebhookId)
              (commandTemplate w1 w2)]) := by
  intro env req body message richMessage hm hb hs hc hn hr ht
  obtain ⟨w1, w2, ws, hg⟩ := trigger_goFields ht
  have hjson : commandToJson richMessage.message = some (commandTemplate w1 w2) := by
    unfold commandToJson
    rw [hg]
  refine ⟨"@ha", w1, w2, ws, hg, hjson, ?_⟩
  rw [messageHandling_message_path env req body message richMessage hm hb hs hc hn hr]
  simp only [ht, if_true]
  cases hsr : (if (callWebhook env (commandToJson richMessage.message)).1 then
      sendReply env req.backend message (getRandomResponse env.randResp)
    else sendReply env req.backend message "Error calling Home Assistant") with
  | ok reply =>
      left
      refine ⟨reply, ?_⟩
      rw [hjson]
      rfl
  | error code =>
      have hcode : code = 1 := by
        by_cases hw : (callWebhook env (commandToJson richMessage.message)).1 = true
        · exact sendReply_error_code (by rwa [if_pos hw] at hsr)
        · exact sendReply_error_code (by rwa [if_neg hw] at hsr)
      subst hcode
      right
      rw [hjson]
      rfl

/-- Witness for C5: on the full pipeline with text "@ha turn_on light1",
the webhook is called with the template filled with "turn_on" and
"light1". -/
theorem c5_webhook_body_witness :
    ∃ w0 w1 w2 ws,
      goFields "@ha turn_on light1" = w0 :: w1 :: w2 :: ws ∧
      commandToJson "@ha turn_on light1" = some (commandTemplate w1 w2) ∧
      ((∃ reply,
          messageHandling envTriggerHit reqSigned = HandlerOutcome.respond
            { response := httpError "Received" 200,
              actions := [BotAction.webhookPost
                  (trimRightSlashes envTriggerHit.config.haUrl ++ "/api/webhook/" ++
                    envTriggerHit.config.haWebhookId)
                  (commandTemplate w1 w2),
                BotAction.replyPost reply] }) ∨
        messageHandling envTriggerHit reqSigned = HandlerOutcome.osExit 1
          [BotAction.webhookPost
            (trimRightSlashes envTriggerHit.config.haUrl ++ "/api/webhook/" ++
              envTriggerHit.config.haWebhookId)
            (commandTemplate w1 w2)]) :=
  c5_webhook_body envTriggerHit reqSigned "b" sampleMessage
    { message := "@ha turn_on light1" }
    rfl rfl rfl rfl rfl rfl (by decide)

/-- Counterexample for C7: a validly signed trigger request whose unsigned
backend header contains a tab makes `http.NewRequest` fail inside
`sendReply`. The automation dispatch has already succeeded (the webhook
answered 200), yet the process exits with code 1: no chat reply is sent
and no inbound HTTP response — in particular no 200 "Received" — is ever
written. -/
theorem c7_counterexample :
    triggerMessageRegexMatch "@ha turn_on light1" = true ∧
    (callWebhook envReplyExit (commandToJson "@ha turn_on light1")).1 = true ∧
    messageHandling envReplyExit reqBadBackend =
      HandlerOutcome.osExit 1
        [(callWebhook envReplyExit (commandToJson "@ha turn_on light1")).2] ∧
    (∀ r : HandlerResult,
      messageHandling envReplyExit reqBadBackend ≠ HandlerOutcome.respond r) := by
  have h3 : messageHandling envReplyExit reqBadBackend =
      HandlerOutcome.osExit 1
        [(callWebhook envReplyExit (commandToJson "@ha turn_on light1")).2] := by
    have hpath := messageHandling_message_path envReplyExit reqBadBackend "b"
      sampleMessage { message := "@ha turn_on light1" } rfl rfl rfl rfl rfl rfl
    rw [hpath]
    rw [if_pos (show triggerMessageRegexMatch "@ha turn_on light1" = true by decide)]
    rw [if_pos (show (callWebhook envReplyExit
      (commandToJson "@ha turn_on light1")).1 = true by decide)]
    rw [sendReply_exit (getRandomResponse envReplyExit.randResp) (by decide)]
  refine ⟨by decide, by decide, h3, ?_⟩
  intro r hr
  rw [h3] at hr
  exact absurd hr (by simp)

/-- Claim C7 (amended): on the fully verified trigger path, whenever
`http.NewRequest` accepts the reply URL built from the backend header and
the target room id, the chat reply text is "Done!" when the automation
dispatch succeeds and "Error calling Home Assistant" when it fails, and in
both cases the inbound HTTP response is 200 "Received"; when the URL is
rejected, the handler instead exits the process with code 1 after the
webhook dispatch, sending no reply and writing no response. -/
theorem c7_reply_and_response :
    ∀ (env : GoEnv) (req : InboundRequest) (body : String) (message : Message)
      (richMessage : RichObjectMessage),
      req.method = "POST" → req.body = Except.ok body →
      req.signature = generateHmacForString body req.random env.config.secret →
      createMessage env body = Except.ok message →
      message.object.name = "message" →
      createRichMessageWithoutParameters env message.object.content =
        Except.ok richMessage →
      triggerMessageRegexMatch richMessage.message = true →
      (env.newRequestOk (req.backend ++ "ocs/v2.php/apps/spreed/api/v1/bot/" ++
          message.target.id ++ "/message") = true →
        messageHandling env req = HandlerOutcome.respond
          { response := httpError "Received" 200,
            actions := [(callWebhook env (commandToJson richMessage.message)).2,
              BotAction.replyPost (buildReply env req.backend message
                (if (callWebhook env (commandToJson richMessage.message)).1 then
                  "Done!"
                 else "Error calling Home Assistant"))] }) ∧
      (env.newRequestOk (req.backend ++ "ocs/v2.php/apps/spreed/api/v1/bot/" ++
          message.target.id ++ "/message") = false →
        messageHandling env req = HandlerOutcome.osExit 1
          [(callWebhook env (commandToJson richMessage.message)).2]) := by
  intro env req body message richMessage hm hb hs hc hn hr ht
  rw [messageHandling_message_path env req body message richMessage hm hb hs hc hn hr]
  simp only [ht, if_true]
  constructor
  · intro hok
    by_cases hw : (callWebhook env (commandToJson richMessage.message)).1 = true
    · rw [if_pos hw, sendReply_ok _ hok]
      simp [hw, getRandomResponse_eq]
    · rw [if_neg hw, sendReply_ok _ hok]
      simp [hw]
  · intro hbad
    by_cases hw : (callWebhook env (commandToJson richMessage.message)).1 = true
    · rw [if_pos hw, sendReply_exit _ hbad]
    · rw [if_neg hw, sendReply_exit _ hbad]

/-- Witness for C7 (amended): on the full pipeline with a webhook
answering 200 and a well-formed backend URL, the reply text is selected by
the dispatch outcome and the response is 200 "Received". -/
theorem c7_reply_and_response_witness :
    messageHandling envTriggerHit reqSigned = HandlerOutcome.respond
      { response := httpError "Received" 200,
        actions := [(callWebhook envTriggerHit (commandToJson "@ha turn_on light1")).2,
          BotAction.replyPost (buildReply envTriggerHit reqSigned.backend sampleMessage
            (if (callWebhook envTriggerHit (commandToJson "@ha turn_on light1")).1 then
              "Done!"
             else "Error calling Home Assistant"))] } :=
  (c7_reply_and_response envTriggerHit reqSigned "b" sampleMessage
    { message := "@ha turn_on light1" }
    rfl rfl rfl rfl rfl rfl (by decide)).1 rfl

/-- Claim C9: every trigger-matching text splits into at least three
whitespace-delimited tokens, so `commandToJson` never returns `nil` on the
trigger path; consequently every webhook call the handler makes carries a
body produced by `commandToJson` on a trigger-matching text (never the nil
body). -/
theorem c9_trigger_token_safety :
    (∀ s : String, triggerMessageRegexMatch s = true →
        3 ≤ (goFields s).length ∧ commandToJson s ≠ none) ∧
    (∀ (env : GoEnv) (req : InboundRequest) (url b : String),
        BotAction.webhookPost url b ∈ outcomeActions (messageHandling env req) →
        ∃ t, triggerMessageRegexMatch t = true ∧ commandToJson t = some b) := by
  constructor
  · intro s h
    obtain ⟨hlen, hsome⟩ := trigger_commandToJson h
    exact ⟨hlen, by simp [hsome]⟩
  · intro env req url b hmem
    have hne : outcomeActions (messageHandling env req) ≠ [] := by
      intro hx
      rw [hx] at hmem
      simp at hmem
    obtain ⟨body, message, rich, rest, hm, hb, hs, hc, hn, hr, ht, hact, hrest⟩ :=
      messageHandling_actions_inv env req hne
    obtain ⟨hlen, hsome⟩ := trigger_commandToJson ht
    rw [hact] at hmem
    rcases List.mem_cons.mp hmem with hmem | hmem
    · refine ⟨rich.message, ht, ?_⟩
      rw [hsome] at hmem
      have hb2 : b = commandTemplate ((goFields rich.message).getD 1 "")
          ((goFields rich.message).getD 2 "") := by
        have hx := hmem
        unfold callWebhook at hx
        simp at hx
        rw [List.getD_eq_getElem?_getD, List.getD_eq_getElem?_getD]
        exact hx.2
      rw [hsome, hb2]
    · rcases hrest with hrest | ⟨r, hrest⟩
      · rw [hrest] at hmem
        simp at hmem
      · rw [hrest] at hmem
        simp at hmem

/-- Witness for C9: the command text "@ha a b" yields at least three tokens
and a non-nil serialization. -/
theorem c9_trigger_token_safety_witness :
    3 ≤ (goFields "@ha a b").length ∧ commandToJson "@ha a b" ≠ none :=
  c9_trigger_token_safety.1 "@ha a b" (by decide)

set_option maxRecDepth 100000 in
/-- Counterexample for C8: the signature `sendReply` attaches is the HMAC
of nonce++replyText, not of nonce++body for the encoded reply body it
posts: at a concrete input the two differ. The first conjunct shows the
reply that is posted is the built request; the second shows its body is
the encoded `Response`; the third shows the attached signature is not the
digest of that posted payload. -/
theorem c8_counterexample :
    sendReply sampleEnv "https://cloud.example/" sampleMessage "Done!" =
      Except.ok (buildReply sampleEnv "https://cloud.example/" sampleMessage "Done!") ∧
    (buildReply sampleEnv "https://cloud.example/" sampleMessage "Done!").body =
      jsonEncodeResponse { message := "Done!", replyTo := "41" } ∧
    (buildReply sampleEnv "https://cloud.example/" sampleMessage "Done!").signature ≠
      generateHmacForString
        (jsonEncodeResponse { message := "Done!", replyTo := "41" })
        (buildReply sampleEnv "https://cloud.example/" sampleMessage "Done!").nonce
        sampleEnv.config.secret := by
  refine ⟨rfl, rfl, ?_⟩
  decide

/-- Claim C8 (amended): for every outbound reply (that is, whenever
`http.NewRequest` accepts the reply URL), the notifier builds
`Response{message, replyTo}`, encodes it as the posted body, generates a
64-character nonce, and attaches a signature equal to the lowercase-hex
HMAC-SHA256 of nonce++replyText under the shared secret — the payload
signed is the reply text, not the encoded body that is posted. -/
theorem c8_signed_frame (env : GoEnv) (server : String) (message : Message)
    (responseText : String)
    (hok : env.newRequestOk (server ++ "ocs/v2.php/apps/spreed/api/v1/bot/" ++
      message.target.id ++ "/message") = true) :
    sendReply env server message responseText = Except.ok
      { url := server ++ "ocs/v2.php/apps/spreed/api/v1/bot/" ++
          message.target.id ++ "/message"
        contentType := "application/json"
        ocsApiRequest := "true"
        nonce := generateRandomBytes env.randBytes 64
        signature := generateHmacForString responseText
          (generateRandomBytes env.randBytes 64) env.config.secret
        body := jsonEncodeResponse
          { message := responseText, replyTo := message.object.id } } := by
  rw [sendReply_ok responseText hok]
  rfl

/-- Witness for C8 (amended): a concrete reply built under an accepting
`http.NewRequest` oracle carries exactly the signed frame of the amended
claim. -/
theorem c8_signed_frame_witness :
    sendReply sampleEnv "srv/" sampleMessage "Done!" = Except.ok
      { url := "srv/" ++ "ocs/v2.php/apps/spreed/api/v1/bot/" ++
          sampleMessage.target.id ++ "/message"
        contentType := "application/json"
        ocsApiRequest := "true"
        nonce := generateRandomBytes sampleEnv.randBytes 64
        signature := generateHmacForString "Done!"
          (generateRandomBytes sampleEnv.randBytes 64) sampleEnv.config.secret
        body := jsonEncodeResponse
          { message := "Done!", replyTo := sampleMessage.object.id } } :=
  c8_signed_frame sampleEnv "srv/" sampleMessage "Done!" rfl

/-- The generated nonce always has 64 characters from the 62-symbol
alphabet. -/
theorem generateRandomBytes_length (rnd : Nat → Nat) (n : Nat) :
    (generateRandomBytes rnd n).length = n := by
  unfold generateRandomBytes
  show (List.map _ (List.range n)).length = n
  rw [List.length_map, List.length_range]
